import Mathlib

/-!
# Verification of the trash-rush game server (src/server.js)

A shallow embedding of the session/matchmaking core of `src/server.js`.
JavaScript objects used as string-keyed dictionaries (`game.scores`,
`game.readyStates`, `this.players`) and the two `Map`s (`publicGames`,
`privateGames`) are modelled as insertion-ordered association lists,
matching the iteration order the code relies on (`Object.entries`,
`Map` iteration, first-fit scans).  Socket emissions are modelled as an
explicit list of `Event` values returned alongside the updated state.
`Math.random`-derived values (`getRandomTrashType`) and `Date.now()` are
passed in as explicit parameters of the operations that draw them.
-/

set_option autoImplicit false

namespace TrashRush

/-- Insertion-ordered association-list lookup (JS property read / `Map.get`):
returns the value at the first matching key. -/
def alGet {α : Type} : List (String × α) → String → Option α
  | [], _ => none
  | (k', v') :: rest, k => if k' = k then some v' else alGet rest k

/-- Insertion-ordered association-list write (JS property assignment /
`Map.set`): updates the first matching key in place, else appends. -/
def alSet {α : Type} : List (String × α) → String → α → List (String × α)
  | [], k, v => [(k, v)]
  | (k', v') :: rest, k, v =>
      if k' = k then (k, v) :: rest else (k', v') :: alSet rest k v

/-- Association-list key removal (JS `delete obj[k]` / `Map.delete`). -/
def alErase {α : Type} (l : List (String × α)) (k : String) : List (String × α) :=
  l.filter (fun p => p.1 ≠ k)

/-- Association-list in-place update of an existing key
(JS `this.players[id].gameId = ...`); absent keys are left alone. -/
def alUpdate {α : Type} (l : List (String × α)) (k : String) (f : α → α) :
    List (String × α) :=
  l.map (fun p => if p.1 = k then (p.1, f p.2) else p)

/-- The helper for `Array.prototype.indexOf` restricted to lists of strings; only ever
applied to members of the list (the roster maps over its own elements). -/
def indexOfStr : List String → String → Nat
  | [], _ => 0
  | y :: rest, x => if y = x then 0 else indexOfStr rest x + 1

/-- The per-connection record held in `this.players` (`src/server.js` line 82
creates `{ socket, gameId: null }`; `joinGame` line 170 replaces it with
`{ socket, gameId, character }`).  The socket handle itself is not part of
the state; emissions are recorded as `Event`s. -/
structure PlayerRec where
  gameId : Option String
  character : Option String
deriving DecidableEq

/-- The session object built by `createGame` (`src/server.js` lines 124-137).
`gameStarted` is absent from the object literal and read as a falsy
`undefined` until `startGame`/`startGameForReal` set it, so it is modelled
as a `Bool` that starts `false`. -/
structure Game where
  id : String
  players : List String
  host : String
  readyStates : List (String × Bool)
  round : Nat
  maxRounds : Nat
  gameState : String
  trashType : String
  negativeMode : Bool
  scores : List (String × Int)
  isPublic : Bool
  createdAt : Int
  gameStarted : Bool
deriving DecidableEq

/-- The server's mutable state: the two session registries, the connection
directory, and the keep-alive freshness timestamp (`src/server.js`
lines 7-12). -/
structure ServerState where
  publicGames : List (String × Game)
  privateGames : List (String × Game)
  players : List (String × PlayerRec)
  lastActivity : Int
deriving DecidableEq

/-- Outbound socket emissions.  `room`/`exceptPlayer` events model
`socket.to(gameId).emit` (everyone in the room but the sender);
`toPlayer` events model a direct `socket.emit`. -/
inductive Event where
  | gameCreated (toPlayer : String) (gameId : String) (isPublic : Bool)
  | gameError (toPlayer : String) (message : String)
  | playerJoined (room : String) (exceptPlayer : String) (playerId : String) (position : Nat)
  | gameJoined (toPlayer : String) (gameId : String) (playerIdx : Nat)
      (roster : List (String × Nat × String))
  | gameStart (toPlayer : String) (trashType : String)
      (roster : List (String × Nat × String))
  | playerDisconnected (room : String) (exceptPlayer : String) (playerId : String)
  | promoteToHost (toPlayer : String)
  | gameOver (toPlayer : String) (winnerId : Option String) (scores : List (String × Int))
  | playerActionEvt (room : String) (exceptPlayer : String) (playerId : String)
      (action : String) (points : Int)
  | startNextRound (room : String) (exceptPlayer : String) (round : Nat) (trashType : String)
deriving DecidableEq

/-- Lookup `this.publicGames.get(gameId) || this.privateGames.get(gameId)` —
the lookup pattern used throughout the file (public registry first). -/
def getGame (st : ServerState) (gid : String) : Option Game :=
  match alGet st.publicGames gid with
  | some g => some g
  | none => alGet st.privateGames gid

/-- In the source the object returned by `getGame` is mutated in place,
which updates it inside whichever registry currently holds the id; this is
modelled by writing the new value back to that registry (public first,
mirroring the `||` lookup order). -/
def putGame (st : ServerState) (gid : String) (g : Game) : ServerState :=
  if (alGet st.publicGames gid).isSome then
    { st with publicGames := alSet st.publicGames gid g }
  else if (alGet st.privateGames gid).isSome then
    { st with privateGames := alSet st.privateGames gid g }
  else st

/-- Registry deletion keyed on the game's own `isPublic` flag, as in
`handleDisconnect` lines 246-250 and `endGame` lines 319-323. -/
def deleteGame (st : ServerState) (gid : String) (isPublic : Bool) : ServerState :=
  if isPublic then { st with publicGames := alErase st.publicGames gid }
  else { st with privateGames := alErase st.privateGames gid }

/-- The roster snapshot `game.players.map(id => ({id, position, character}))`
(`src/server.js` lines 186-190, 279-283): position is `indexOf + 1` and the
character falls back to `"goblin"` when the directory has none. -/
def rosterOf (st : ServerState) (g : Game) : List (String × Nat × String) :=
  g.players.map (fun id =>
    (id, indexOfStr g.players id + 1,
      ((alGet st.players id).bind PlayerRec.character).getD "goblin"))

/-- Embeds `createGame(socket, isPublic)` (`src/server.js` lines 121-156).
`Date.now()` is the explicit `now` parameter (also the basis of the id) and
the `getRandomTrashType()` draw is the explicit `trash` parameter.  Returns
the new state, the new game id, and the emissions. -/
def createGame (st : ServerState) (sid : String) (now : Int) (trash : String)
    (isPublic : Bool) : ServerState × String × List Event :=
  let gameId := "game_" ++ toString now
  let game : Game :=
    { id := gameId, players := [sid], host := sid, readyStates := [],
      round := 1, maxRounds := 3, gameState := "lobby", trashType := trash,
      negativeMode := false, scores := [], isPublic := isPublic,
      createdAt := now, gameStarted := false }
  let st1 :=
    if isPublic then { st with publicGames := alSet st.publicGames gameId game }
    else { st with privateGames := alSet st.privateGames gameId game }
  let st2 := { st1 with
    players := alUpdate st1.players sid (fun p => { p with gameId := some gameId }) }
  (st2, gameId, [Event.gameCreated sid gameId isPublic])

/-- Embeds `startGame(gameId, isPublic)` (`src/server.js` lines 265-286): re-fetches
the session from the registry named by `isPublic`, sets `gameStarted`,
redraws the trash type (the `trash` parameter) and emits `gameStart` with
the roster to every roster member. -/
def startGame (st : ServerState) (gid : String) (isPublic : Bool) (trash : String) :
    ServerState × List Event :=
  match (if isPublic then alGet st.publicGames gid else alGet st.privateGames gid) with
  | none => (st, [])
  | some game =>
    let game1 := { game with gameStarted := true, trashType := trash }
    let st1 :=
      if isPublic then { st with publicGames := alSet st.publicGames gid game1 }
      else { st with privateGames := alSet st.privateGames gid game1 }
    (st1, game1.players.map (fun pid => Event.gameStart pid trash (rosterOf st game1)))

/-- Embeds `joinGame(socket, gameId, character, isPublic)` (`src/server.js`
lines 158-198).  Fails with `gameError` when the id is absent
(`"Game not found"`) or the roster already has 4 or more players
(`"Game is full"`); otherwise appends the player, resets their score entry
to 0, rewrites their directory record, emits `playerJoined` (to the others)
and `gameJoined` (to the joiner), and auto-starts when the roster reaches 4.
Returns (state, success flag, emissions). -/
def joinGame (st : ServerState) (sid : String) (gameId : String) (character : String)
    (trash : String) (isPublic : Bool) : ServerState × Bool × List Event :=
  match (if isPublic then alGet st.publicGames gameId else alGet st.privateGames gameId) with
  | none => (st, false, [Event.gameError sid "Game not found"])
  | some game =>
    if 4 ≤ game.players.length then
      (st, false, [Event.gameError sid "Game is full"])
    else
      let game1 := { game with
        players := game.players ++ [sid],
        scores := alSet game.scores sid 0 }
      let st1 :=
        if isPublic then { st with publicGames := alSet st.publicGames gameId game1 }
        else { st with privateGames := alSet st.privateGames gameId game1 }
      let st2 := { st1 with
        players := alSet st1.players sid ⟨some gameId, some character⟩ }
      let evs := [Event.playerJoined gameId sid sid game1.players.length,
                  Event.gameJoined sid gameId (game1.players.length - 1)
                    (rosterOf st2 game1)]
      if game1.players.length = 4 then
        let r := startGame st2 gameId isPublic trash
        (r.1, true, evs ++ r.2)
      else
        (st2, true, evs)

/-- The first-fit scan of `handleQuickPlay` (`src/server.js` lines 204-209):
the first public session, in `Map` insertion order, that has not started and
has fewer than 4 players. -/
def findOpenPublic : List (String × Game) → Option String
  | [] => none
  | (id, g) :: rest =>
      if !g.gameStarted && g.players.length < 4 then some id
      else findOpenPublic rest

/-- Embeds `cleanupOldGames()` (`src/server.js` lines 332-346): drops, from both
registries, every session older than 30 minutes or with an empty roster.
`Date.now()` is the explicit `now` parameter. -/
def cleanupOldGames (st : ServerState) (now : Int) : ServerState :=
  { st with
    publicGames := st.publicGames.filter
      (fun p => !(decide (1800000 < now - p.2.createdAt) || p.2.players.isEmpty)),
    privateGames := st.privateGames.filter
      (fun p => !(decide (1800000 < now - p.2.createdAt) || p.2.players.isEmpty)) }

/-- Embeds `handleQuickPlay(socket, {character})` (`src/server.js` lines 200-217):
sweep first, then join the first open public session, else create one and
join it (note: `createGame` already seats the creator, so this second call
seats them again). -/
def handleQuickPlay (st : ServerState) (sid : String) (character : String)
    (now : Int) (trash : String) : ServerState × List Event :=
  let st0 := cleanupOldGames st now
  match findOpenPublic st0.publicGames with
  | some gid =>
    let r := joinGame st0 sid gid character trash true
    (r.1, r.2.2)
  | none =>
    let c := createGame st0 sid now trash true
    let r := joinGame c.1 sid c.2.1 character trash true
    (r.1, c.2.2 ++ r.2.2)

/-- Embeds `handleDisconnect(socket)` (`src/server.js` lines 220-262): looks the
connection up in the directory; if it is in a session, filters it out of the
roster and deletes its score/ready entries, notifies the room, deletes the
session when the roster became empty, promotes `players[0]` when the host
left; finally erases the directory record. -/
def handleDisconnect (st : ServerState) (sid : String) : ServerState × List Event :=
  match alGet st.players sid with
  | none => (st, [])
  | some p =>
    let r : ServerState × List Event :=
      match p.gameId with
      | none => (st, [])
      | some gid =>
        match getGame st gid with
        | none => (st, [])
        | some game =>
          let players1 := game.players.filter (fun id => id ≠ sid)
          let game1 := { game with
            players := players1,
            scores := alErase game.scores sid,
            readyStates := alErase game.readyStates sid }
          let st1 := putGame st gid game1
          let ev1 := [Event.playerDisconnected gid sid sid]
          if players1.length = 0 then
            (deleteGame st1 gid game.isPublic, ev1)
          else if sid = game.host then
            let newHost := players1.headD ""
            (putGame st1 gid { game1 with host := newHost },
             ev1 ++ [Event.promoteToHost newHost])
          else (st1, ev1)
    ({ r.1 with players := alErase r.1.players sid }, r.2)

/-- One step of the winner scan in `endGame` (`src/server.js` lines 299-304):
strict improvement over the running maximum replaces the candidate. -/
def winnerFoldStep (acc : Int × Option String) (kv : String × Int) :
    Int × Option String :=
  if acc.1 < kv.2 then (kv.2, some kv.1) else acc

/-- The winner computation of `endGame`: `Object.entries(game.scores)` in
insertion order, folded from `maxScore = -1`, `winnerId = null`. -/
def computeWinner (scores : List (String × Int)) : Int × Option String :=
  scores.foldl winnerFoldStep (-1, none)

/-- Embeds `endGame(gameId, isPublic)` (`src/server.js` lines 288-324): fetches the
session from the registry named by `isPublic`, computes the winner, emits
`gameOver` to every roster member, and deletes the session from that registry
in the same step (no delay). -/
def endGame (st : ServerState) (gid : String) (isPublic : Bool) :
    ServerState × List Event :=
  match (if isPublic then alGet st.publicGames gid else alGet st.privateGames gid) with
  | none => (st, [])
  | some game =>
    let winnerId := (computeWinner game.scores).2
    (deleteGame st gid isPublic,
     game.players.map (fun pid => Event.gameOver pid winnerId game.scores))

/-- Embeds `startGameForReal(socket, {gameId})` (`src/server.js` lines 407-417):
the socket argument is never consulted (no host check); an existing,
not-yet-started session is marked started and `startGame` runs against the
registry that holds it. -/
def startGameForReal (st : ServerState) (sid : String) (gameId : Option String)
    (trash : String) : ServerState × List Event :=
  match gameId with
  | none => (st, [])
  | some gid =>
    match getGame st gid with
    | none => (st, [])
    | some game =>
      if game.gameStarted then (st, [])
      else
        let st1 := putGame st gid { game with gameStarted := true }
        startGame st1 gid (alGet st1.publicGames gid).isSome trash

/-- Embeds `joinPrivateGame(socket, data)` (`src/server.js` lines 419-422):
delegates to `joinGame` against the private registry. -/
def joinPrivateGame (st : ServerState) (sid : String) (gameId : String)
    (character : String) (trash : String) : ServerState × Bool × List Event :=
  joinGame st sid gameId character trash false

/-- Embeds `handlePlayerAction(socket, {gameId, action, points})` (`src/server.js`
lines 424-440): roster members relay the action to the room; `tapTrash` adds
the caller-supplied `points` to `(game.scores[id] || 0)`. -/
def handlePlayerAction (st : ServerState) (sid : String) (gid : String)
    (action : String) (points : Int) : ServerState × List Event :=
  match getGame st gid with
  | none => (st, [])
  | some game =>
    if sid ∈ game.players then
      let evs := [Event.playerActionEvt gid sid sid action points]
      if action = "tapTrash" then
        let old := (alGet game.scores sid).getD 0
        (putGame st gid { game with scores := alSet game.scores sid (old + points) },
         evs)
      else (st, evs)
    else (st, [])

/-- Embeds `handleRoundComplete(socket)` (`src/server.js` lines 442-458): resolves
the caller's session through the directory, requires the caller to be host,
increments the round, and either ends the game (`round > maxRounds`) or
redraws the trash type and announces the next round. -/
def handleRoundComplete (st : ServerState) (sid : String) (trash : String) :
    ServerState × List Event :=
  match (alGet st.players sid).bind PlayerRec.gameId with
  | none => (st, [])
  | some gid =>
    match getGame st gid with
    | none => (st, [])
    | some game =>
      if sid = game.host then
        let game1 := { game with round := game.round + 1 }
        let st1 := putGame st gid game1
        if game1.maxRounds < game1.round then
          endGame st1 gid (alGet st1.publicGames gid).isSome
        else
          let game2 := { game1 with trashType := trash }
          (putGame st1 gid game2,
           [Event.startNextRound gid sid game2.round trash])
      else (st, [])

/-- The background interval callback installed by `initialize`
(`src/server.js` lines 70-77): when the server has been inactive for more
than `ACTIVITY_TIMEOUT` it fires an HTTP keep-alive ping; in either branch
it reads but never writes the registries, the directory or `lastActivity`,
so its effect on the modelled state is the identity. -/
def keepAliveTick (st : ServerState) (now : Int) : ServerState :=
  if 300000 < now - st.lastActivity then st else st


/-! ## Association-list and registry lemmas -/

theorem alGet_alSet_self {α : Type} (l : List (String × α)) (k : String) (v : α) :
    alGet (alSet l k v) k = some v := by
  induction l with
  | nil => simp [alSet, alGet]
  | cons p rest ih =>
    obtain ⟨k', v'⟩ := p
    by_cases h : k' = k
    · simp [alSet, h, alGet]
    · simp [alSet, h, alGet, ih]

theorem alGet_alErase_self {α : Type} (l : List (String × α)) (k : String) :
    alGet (alErase l k) k = none := by
  induction l with
  | nil => simp [alErase, alGet]
  | cons p rest ih =>
    obtain ⟨k', v'⟩ := p
    by_cases h : k' = k
    · simpa [alErase, List.filter_cons, h] using ih
    · simpa [alErase, List.filter_cons, h, alGet] using ih

theorem alGet_alSet_other {α : Type} (l : List (String × α)) (k k' : String) (v : α)
    (h : k' ≠ k) : alGet (alSet l k v) k' = alGet l k' := by
  have hkk : ¬ k = k' := fun h' => h h'.symm
  induction l with
  | nil => simp [alSet, alGet, hkk]
  | cons p rest ih =>
    obtain ⟨k0, v0⟩ := p
    by_cases h0 : k0 = k
    · subst h0
      simp [alSet, alGet, hkk]
    · simp [alSet, h0, alGet, ih]

theorem getGame_putGame_self (st : ServerState) (gid : String) (g : Game)
    (h : (getGame st gid).isSome) : getGame (putGame st gid g) gid = some g := by
  unfold getGame putGame at *
  cases hp : alGet st.publicGames gid with
  | some g0 => simp [hp, alGet_alSet_self]
  | none =>
    cases hq : alGet st.privateGames gid with
    | some g0 => simp [hp, hq, alGet_alSet_self]
    | none => simp [hp, hq] at h

theorem getGame_set_players (st : ServerState) (x : List (String × PlayerRec))
    (gid : String) : getGame { st with players := x } gid = getGame st gid := rfl


theorem getGame_deleteGame_putGame (st : ServerState) (gid : String) (g : Game)
    (flag : Bool) (h : (getGame st gid).isSome)
    (hdisj : alGet st.publicGames gid = none ∨ alGet st.privateGames gid = none) :
    getGame (deleteGame (putGame st gid g) gid flag) gid = none ∨
    getGame (deleteGame (putGame st gid g) gid flag) gid = some g := by
  cases hp : alGet st.publicGames gid with
  | some g0 =>
    have hq : alGet st.privateGames gid = none := by
      rcases hdisj with h' | h'
      · exact absurd hp (by simp [h'])
      · exact h'
    cases flag with
    | true =>
      exact Or.inl (by simp [deleteGame, putGame, getGame, hp, hq, alGet_alErase_self])
    | false =>
      exact Or.inr (by simp [deleteGame, putGame, getGame, hp, hq, alGet_alSet_self])
  | none =>
    cases hq : alGet st.privateGames gid with
    | none => simp [getGame, hp, hq] at h
    | some g0 =>
      cases flag with
      | true =>
        exact Or.inr (by
          simp [deleteGame, putGame, getGame, hp, hq, alGet_alErase_self, alGet_alSet_self])
      | false =>
        exact Or.inl (by
          simp [deleteGame, putGame, getGame, hp, hq, alGet_alSet_self, alGet_alErase_self])

/-- Characterization of the session-side effect of `handleDisconnect` for a
connection currently recorded in session `gid`: the player is filtered out
of the roster and erased from the score and ready tables; a session whose
roster becomes empty is deleted (the stripped session can survive only when
its `isPublic` flag disagrees with the registry actually holding it);
otherwise the session survives, with the host re-pointed at the first
remaining roster entry exactly when the host left.  `hdisj` says the id is
not simultaneously present in both registries, which holds in every
reachable state because ids enter exactly one registry at creation. -/
theorem handleDisconnect_spec (st : ServerState) (sid : String) (pr : PlayerRec)
    (gid : String) (game : Game)
    (h1 : alGet st.players sid = some pr) (h2 : pr.gameId = some gid)
    (h3 : getGame st gid = some game)
    (hdisj : alGet st.publicGames gid = none ∨ alGet st.privateGames gid = none) :
    (game.players.filter (fun id => id ≠ sid) = [] →
       getGame (handleDisconnect st sid).1 gid = none ∨
       getGame (handleDisconnect st sid).1 gid = some
         { game with players := game.players.filter (fun id => id ≠ sid),
                     scores := alErase game.scores sid,
                     readyStates := alErase game.readyStates sid }) ∧
    (game.players.filter (fun id => id ≠ sid) ≠ [] → sid = game.host →
       getGame (handleDisconnect st sid).1 gid = some
         { game with players := game.players.filter (fun id => id ≠ sid),
                     scores := alErase game.scores sid,
                     readyStates := alErase game.readyStates sid,
                     host := (game.players.filter (fun id => id ≠ sid)).headD "" } ∧
       (handleDisconnect st sid).2 =
         [Event.playerDisconnected gid sid sid,
          Event.promoteToHost ((game.players.filter (fun id => id ≠ sid)).headD "")]) ∧
    (game.players.filter (fun id => id ≠ sid) ≠ [] → sid ≠ game.host →
       getGame (handleDisconnect st sid).1 gid = some
         { game with players := game.players.filter (fun id => id ≠ sid),
                     scores := alErase game.scores sid,
                     readyStates := alErase game.readyStates sid } ∧
       (handleDisconnect st sid).2 = [Event.playerDisconnected gid sid sid]) := by
  have hsome : (getGame st gid).isSome := by rw [h3]; rfl
  refine ⟨?_, ?_, ?_⟩
  · intro hz
    have hlen : (game.players.filter (fun id => id ≠ sid)).length = 0 := by
      rw [hz]; rfl
    have hdel := getGame_deleteGame_putGame st gid
      { game with players := game.players.filter (fun id => id ≠ sid),
                  scores := alErase game.scores sid,
                  readyStates := alErase game.readyStates sid }
      game.isPublic hsome hdisj
    unfold handleDisconnect
    simp only [h1, h2, h3, hlen, if_true, getGame_set_players]
    simpa using hdel
  · intro hz hhost
    have hlen : ¬ (game.players.filter (fun id => id ≠ sid)).length = 0 := by
      simpa [List.length_eq_zero] using hz
    have hput : getGame (putGame st gid
        { game with players := game.players.filter (fun id => id ≠ sid),
                    scores := alErase game.scores sid,
                    readyStates := alErase game.readyStates sid }) gid = some
        { game with players := game.players.filter (fun id => id ≠ sid),
                    scores := alErase game.scores sid,
                    readyStates := alErase game.readyStates sid } :=
      getGame_putGame_self st gid _ hsome
    have hput2 := getGame_putGame_self (putGame st gid
        { game with players := game.players.filter (fun id => id ≠ sid),
                    scores := alErase game.scores sid,
                    readyStates := alErase game.readyStates sid }) gid
        { game with players := game.players.filter (fun id => id ≠ sid),
                    scores := alErase game.scores sid,
                    readyStates := alErase game.readyStates sid,
                    host := (game.players.filter (fun id => id ≠ sid)).headD "" }
        (by rw [hput]; rfl)
    unfold handleDisconnect
    simp only [h1, h2, h3]
    rw [if_neg hlen, if_pos hhost]
    exact ⟨hput2, rfl⟩
  · intro hz hhost
    have hlen : ¬ (game.players.filter (fun id => id ≠ sid)).length = 0 := by
      simpa [List.length_eq_zero] using hz
    have hput : getGame (putGame st gid
        { game with players := game.players.filter (fun id => id ≠ sid),
                    scores := alErase game.scores sid,
                    readyStates := alErase game.readyStates sid }) gid = some
        { game with players := game.players.filter (fun id => id ≠ sid),
                    scores := alErase game.scores sid,
                    readyStates := alErase game.readyStates sid } :=
      getGame_putGame_self st gid _ hsome
    unfold handleDisconnect
    simp only [h1, h2, h3]
    rw [if_neg hlen, if_neg hhost]
    exact ⟨hput, rfl⟩

theorem not_mem_filter_ne (l : List String) (sid : String) :
    sid ∉ l.filter (fun id => id ≠ sid) := by
  intro h
  have h2 := (List.mem_filter.mp h).2
  simp at h2

/-! ## Concrete fixtures -/

/-- A two-player public session mid-game, used to instantiate theorems. -/
def gFix : Game :=
  { id := "g1", players := ["p1", "p2"], host := "p1", readyStates := [],
    round := 1, maxRounds := 3, gameState := "lobby", trashType := "golden",
    negativeMode := false, scores := [("p1", 3), ("p2", 5)], isPublic := true,
    createdAt := 0, gameStarted := true }

/-- Server state holding `gFix` with both players in the directory. -/
def stFix : ServerState :=
  { publicGames := [("g1", gFix)], privateGames := [],
    players := [("p1", ⟨some "g1", some "cat"⟩), ("p2", ⟨some "g1", some "dog"⟩)],
    lastActivity := 0 }

/-- The session left behind after `p2` (non-host) disconnects from `stFix`. -/
def resP2 : Game :=
  { gFix with players := ["p1"], scores := [("p1", 3)] }

/-- The session left behind after `p1` (the host) disconnects from `stFix`. -/
def resHostGone : Game :=
  { gFix with players := ["p2"], scores := [("p2", 5)], host := "p2" }

/-! ## C1 -/

/-- C1, counterexample: the claim says `handleDisconnect` keeps the
disconnected player in the roster and score table; on the concrete session
`stFix`, disconnecting `p2` leaves a roster of just `["p1"]` and a score
table of just `[("p1", 3)]` — `p2` has been removed from both. -/
theorem C1_counterexample :
    (getGame (handleDisconnect stFix "p2").1 "g1").map Game.players = some ["p1"] ∧
    (getGame (handleDisconnect stFix "p2").1 "g1").map Game.scores = some [("p1", 3)] := by
  decide

/-- C1, amended: for every disconnect of a connection recorded in session
`gid`, whatever session is found at `gid` afterwards no longer contains the
player in its roster, score table or ready map — `handleDisconnect` removes
the player outright (there is no connectivity flag), so final standings
exclude disconnected players. -/
theorem C1_disconnect_removes (st : ServerState) (sid : String) (pr : PlayerRec)
    (gid : String) (game : Game)
    (h1 : alGet st.players sid = some pr) (h2 : pr.gameId = some gid)
    (h3 : getGame st gid = some game)
    (hdisj : alGet st.publicGames gid = none ∨ alGet st.privateGames gid = none) :
    ∀ g', getGame (handleDisconnect st sid).1 gid = some g' →
      sid ∉ g'.players ∧ alGet g'.scores sid = none ∧ alGet g'.readyStates sid = none := by
  intro g' hg'
  obtain ⟨hA, hB, hC⟩ := handleDisconnect_spec st sid pr gid game h1 h2 h3 hdisj
  by_cases hz : game.players.filter (fun id => id ≠ sid) = []
  · rcases hA hz with hnone | hyes
    · rw [hnone] at hg'; cases hg'
    · rw [hyes] at hg'
      injection hg' with h
      subst h
      exact ⟨not_mem_filter_ne _ _, alGet_alErase_self _ _, alGet_alErase_self _ _⟩
  · by_cases hh : sid = game.host
    · obtain ⟨hyes, _⟩ := hB hz hh
      rw [hyes] at hg'
      injection hg' with h
      subst h
      exact ⟨not_mem_filter_ne _ _, alGet_alErase_self _ _, alGet_alErase_self _ _⟩
    · obtain ⟨hyes, _⟩ := hC hz hh
      rw [hyes] at hg'
      injection hg' with h
      subst h
      exact ⟨not_mem_filter_ne _ _, alGet_alErase_self _ _, alGet_alErase_self _ _⟩

/-- C1, witness: the amended theorem instantiated on `stFix` with `p2`
disconnecting. -/
theorem C1_witness :
    "p2" ∉ resP2.players ∧ alGet resP2.scores "p2" = none ∧
      alGet resP2.readyStates "p2" = none :=
  C1_disconnect_removes stFix "p2" ⟨some "g1", some "dog"⟩ "g1" gFix
    (by decide) (by decide) (by decide) (by decide) resP2 (by decide)

/-! ## C8 -/

/-- C8: disconnecting a non-host roster member never changes the session's
host; disconnecting the host while the filtered roster is still non-empty
re-points the host at the first remaining roster entry (lowest seat), emits
`promoteToHost` to that player, and keeps the session in its registry. -/
theorem C8_host_migration (st : ServerState) (sid : String) (pr : PlayerRec)
    (gid : String) (game : Game)
    (h1 : alGet st.players sid = some pr) (h2 : pr.gameId = some gid)
    (h3 : getGame st gid = some game)
    (hdisj : alGet st.publicGames gid = none ∨ alGet st.privateGames gid = none) :
    (sid ≠ game.host → game.host ∈ game.players →
       ∀ g', getGame (handleDisconnect st sid).1 gid = some g' → g'.host = game.host) ∧
    (sid = game.host → ∀ newHost rest,
       game.players.filter (fun id => id ≠ sid) = newHost :: rest →
       getGame (handleDisconnect st sid).1 gid = some
         { game with players := newHost :: rest,
                     scores := alErase game.scores sid,
                     readyStates := alErase game.readyStates sid,
                     host := newHost } ∧
       Event.promoteToHost newHost ∈ (handleDisconnect st sid).2) := by
  obtain ⟨hA, hB, hC⟩ := handleDisconnect_spec st sid pr gid game h1 h2 h3 hdisj
  constructor
  · intro hh hmem g' hg'
    have hz : game.players.filter (fun id => id ≠ sid) ≠ [] := by
      intro hnil
      have hin : game.host ∈ game.players.filter (fun id => id ≠ sid) :=
        List.mem_filter.mpr ⟨hmem, by simpa using fun hEq => hh hEq.symm⟩
      rw [hnil] at hin
      cases hin
    obtain ⟨hyes, _⟩ := hC hz hh
    rw [hyes] at hg'
    injection hg' with h
    subst h
    rfl
  · intro hh newHost rest hfilter
    have hz : game.players.filter (fun id => id ≠ sid) ≠ [] := by
      rw [hfilter]; simp
    obtain ⟨hyes, hevs⟩ := hB hz hh
    rw [hfilter] at hyes hevs
    refine ⟨hyes, ?_⟩
    rw [hevs]
    simp

/-- C8, witness: on `stFix`, disconnecting non-host `p2` leaves the host
`p1` in place, while disconnecting host `p1` promotes `p2` (the first
remaining roster entry) and keeps the session in the registry. -/
theorem C8_witness :
    resP2.host = "p1" ∧
    (getGame (handleDisconnect stFix "p1").1 "g1" = some resHostGone ∧
     Event.promoteToHost "p2" ∈ (handleDisconnect stFix "p1").2) := by
  constructor
  · exact (C8_host_migration stFix "p2" ⟨some "g1", some "dog"⟩ "g1" gFix
      (by decide) (by decide) (by decide) (by decide)).1
      (by decide) (by decide) resP2 (by decide)
  · exact (C8_host_migration stFix "p1" ⟨some "g1", some "cat"⟩ "g1" gFix
      (by decide) (by decide) (by decide) (by decide)).2
      rfl "p2" [] (by decide)

/-! ## C2 -/

/-- Invariant of the winner scan: folding `winnerFoldStep` over a list either
leaves the accumulator untouched (every value at most the running maximum) or
lands on the first entry that strictly beats everything before it and is not
beaten afterwards. -/
theorem winnerFold_spec (l : List (String × Int)) (m : Int) (w : Option String) :
    (l.foldl winnerFoldStep (m, w) = (m, w) ∧ ∀ kv ∈ l, kv.2 ≤ m) ∨
    (∃ l1 p s l2, l = l1 ++ (p, s) :: l2 ∧
       l.foldl winnerFoldStep (m, w) = (s, some p) ∧
       (∀ kv ∈ l1, kv.2 < s) ∧ m < s ∧ (∀ kv ∈ l2, kv.2 ≤ s)) := by
  induction l generalizing m w with
  | nil => exact Or.inl ⟨rfl, by simp⟩
  | cons kv rest ih =>
    obtain ⟨p0, s0⟩ := kv
    by_cases hgt : m < s0
    · have hstep : List.foldl winnerFoldStep (m, w) ((p0, s0) :: rest) =
          List.foldl winnerFoldStep (s0, some p0) rest := by
        simp [List.foldl_cons, winnerFoldStep, hgt]
      rcases ih s0 (some p0) with ⟨heq, hall⟩ |
        ⟨l1, p, s, l2, hsplit, hfold, hl1, hms, hl2⟩
      · right
        refine ⟨[], p0, s0, rest, by simp, ?_, by simp, hgt, hall⟩
        rw [hstep, heq]
      · right
        refine ⟨(p0, s0) :: l1, p, s, l2, by rw [hsplit, List.cons_append], ?_, ?_,
          lt_trans hgt hms, hl2⟩
        · rw [hstep, hfold]
        · intro kv hkv
          rcases List.mem_cons.mp hkv with rfl | hkv'
          · exact hms
          · exact hl1 _ hkv'
    · have hstep : List.foldl winnerFoldStep (m, w) ((p0, s0) :: rest) =
          List.foldl winnerFoldStep (m, w) rest := by
        simp [List.foldl_cons, winnerFoldStep, hgt]
      rcases ih m w with ⟨heq, hall⟩ |
        ⟨l1, p, s, l2, hsplit, hfold, hl1, hms, hl2⟩
      · left
        refine ⟨by rw [hstep, heq], ?_⟩
        intro kv hkv
        rcases List.mem_cons.mp hkv with rfl | hkv'
        · exact le_of_not_lt hgt
        · exact hall _ hkv'
      · right
        refine ⟨(p0, s0) :: l1, p, s, l2, by rw [hsplit, List.cons_append],
          by rw [hstep, hfold], ?_, hms, hl2⟩
        intro kv hkv
        rcases List.mem_cons.mp hkv with rfl | hkv'
        · exact lt_of_le_of_lt (le_of_not_lt hgt) hms
        · exact hl1 _ hkv'

/-- A two-player public session with an exact tie at the maximum score. -/
def gTie : Game :=
  { id := "g1", players := ["a", "b"], host := "a", readyStates := [],
    round := 4, maxRounds := 3, gameState := "lobby", trashType := "golden",
    negativeMode := false, scores := [("a", 5), ("b", 5)], isPublic := true,
    createdAt := 0, gameStarted := true }

/-- Server state holding the tied session `gTie`. -/
def stTie : ServerState :=
  { publicGames := [("g1", gTie)], privateGames := [],
    players := [("a", ⟨some "g1", some "cat"⟩), ("b", ⟨some "g1", some "dog"⟩)],
    lastActivity := 0 }

/-- C2, counterexample: with `a` and `b` exactly tied at the maximum score 5,
`endGame` reports `a` as the winner on every run and `b` can never win — the
tie is broken deterministically by score-table insertion order, not by an
unweighted coin flip giving each tied leader equal probability. -/
theorem C2_counterexample :
    (endGame stTie "g1" true).2 =
      [Event.gameOver "a" (some "a") [("a", 5), ("b", 5)],
       Event.gameOver "b" (some "a") [("a", 5), ("b", 5)]] ∧
    (computeWinner gTie.scores).2 ≠ some "b" := by
  decide

/-- C2, amended: `endGame` deterministically selects as winner the earliest
entry in score-table insertion order attaining the maximum score: the score
table splits as `l1 ++ (p, s) :: l2` with every earlier score strictly below
`s` and every later score at most `s`, and every `gameOver` emission names
`p`.  In particular the reported winner is always one of the tied leaders,
and an exact tie is resolved in favour of the earlier-inserted player, with
no randomness. -/
theorem C2_first_leader_wins (st : ServerState) (gid : String) (isPublic : Bool)
    (game : Game)
    (h : (if isPublic then alGet st.publicGames gid else alGet st.privateGames gid) =
      some game)
    (hne : game.scores ≠ []) (hnn : ∀ kv ∈ game.scores, (0 : Int) ≤ kv.2) :
    ∃ l1 p s l2, game.scores = l1 ++ (p, s) :: l2 ∧
      (∀ kv ∈ l1, kv.2 < s) ∧ (∀ kv ∈ l2, kv.2 ≤ s) ∧
      computeWinner game.scores = (s, some p) ∧
      (endGame st gid isPublic).2 =
        game.players.map (fun pid => Event.gameOver pid (some p) game.scores) := by
  rcases winnerFold_spec game.scores (-1) none with ⟨heq, hall⟩ |
    ⟨l1, p, s, l2, hsplit, hfold, hl1, hms, hl2⟩
  · obtain ⟨kv, hkv⟩ := List.exists_mem_of_ne_nil game.scores hne
    have hle := hall kv hkv
    have hge := hnn kv hkv
    omega
  · have hcw : computeWinner game.scores = (s, some p) := hfold
    refine ⟨l1, p, s, l2, hsplit, hl1, hl2, hcw, ?_⟩
    simp only [endGame, h]
    rw [hcw]

/-- C2, witness: the amended theorem instantiated on the tied session
`stTie`. -/
theorem C2_witness :
    ∃ l1 p s l2, gTie.scores = l1 ++ (p, s) :: l2 ∧
      (∀ kv ∈ l1, kv.2 < s) ∧ (∀ kv ∈ l2, kv.2 ≤ s) ∧
      computeWinner gTie.scores = (s, some p) ∧
      (endGame stTie "g1" true).2 =
        gTie.players.map (fun pid => Event.gameOver pid (some p) gTie.scores) :=
  C2_first_leader_wins stTie "g1" true gTie (by decide) (by decide) (by decide)

/-! ## C3 -/

/-- An empty registry with two fresh connections, the starting point of the
quickPlay pairing scenario. -/
def c3start : ServerState :=
  { publicGames := [], privateGames := [],
    players := [("c1", ⟨none, none⟩), ("c2", ⟨none, none⟩)], lastActivity := 0 }

/-- First quickPlay: `c1` at time 1000. -/
def c3first : ServerState × List Event := handleQuickPlay c3start "c1" "cat" 1000 "golden"

/-- Second quickPlay: `c2` at time 2000 joins the session `c1` opened. -/
def c3second : ServerState × List Event := handleQuickPlay c3first.1 "c2" "dog" 2000 "handbag"

/-- C3: both players do land in the same session, but `handleQuickPlay`
first seats the creator inside `createGame` and then calls `joinGame` on the
same connection, seating the creator a second time.  The resulting roster is
`["c1", "c1", "c2"]` of size 3 (with `c1` occupying two seats that both
report position 1), `c1`'s own `gameJoined` roster lists `c1` twice, and
`c2` receives a roster of size 3 — not the size-2 roster in join order the
scenario describes. -/
theorem C3_duplicate_creator :
    (alGet c3second.1.publicGames "game_1000").map Game.players =
      some ["c1", "c1", "c2"] ∧
    c3first.2 =
      [Event.gameCreated "c1" "game_1000" true,
       Event.playerJoined "game_1000" "c1" "c1" 2,
       Event.gameJoined "c1" "game_1000" 1 [("c1", 1, "cat"), ("c1", 1, "cat")]] ∧
    c3second.2 =
      [Event.playerJoined "game_1000" "c2" "c2" 3,
       Event.gameJoined "c2" "game_1000" 2
         [("c1", 1, "cat"), ("c1", 1, "cat"), ("c2", 3, "dog")]] := by
  decide

/-! ## C4 -/

/-- A two-player public session that has not started, host `h`. -/
def gNS : Game :=
  { id := "g2", players := ["h", "x"], host := "h", readyStates := [],
    round := 1, maxRounds := 3, gameState := "lobby", trashType := "golden",
    negativeMode := false, scores := [("h", 0), ("x", 0)], isPublic := true,
    createdAt := 0, gameStarted := false }

/-- Server state holding `gNS`. -/
def stNS : ServerState :=
  { publicGames := [("g2", gNS)], privateGames := [],
    players := [("h", ⟨some "g2", some "cat"⟩), ("x", ⟨some "g2", some "dog"⟩)],
    lastActivity := 0 }

/-- The session `gNS` after `startGameForReal` fires on it. -/
def c4res : Game := { gNS with gameStarted := true, trashType := "handbag" }

/-- C4, counterexample: the non-host `x` issues `startGameForReal` on `g2`
and, far from being silently ignored, the call flips `gameStarted` to true
and broadcasts `gameStart` to the whole roster. -/
theorem C4_counterexample :
    (getGame (startGameForReal stNS "x" (some "g2") "handbag").1 "g2").map
      Game.gameStarted = some true ∧
    (startGameForReal stNS "x" (some "g2") "handbag").2 =
      [Event.gameStart "h" "handbag" [("h", 1, "cat"), ("x", 2, "dog")],
       Event.gameStart "x" "handbag" [("h", 1, "cat"), ("x", 2, "dog")]] := by
  decide

theorem getGame_startGame_self (st : ServerState) (gid : String) (g : Game)
    (trash : String) (h : getGame st gid = some g) :
    getGame (startGame st gid (alGet st.publicGames gid).isSome trash).1 gid =
      some { g with gameStarted := true, trashType := trash } := by
  cases hp : alGet st.publicGames gid with
  | some g0 =>
    have hg0 : g0 = g := by
      have h' := h
      simp only [getGame, hp] at h'
      exact Option.some_injective _ h'
    subst hg0
    simp [startGame, hp, getGame, alGet_alSet_self]
  | none =>
    have hq : alGet st.privateGames gid = some g := by
      simpa [getGame, hp] using h
    simp [startGame, hp, hq, getGame, alGet_alSet_self]

/-- C4, amended: `startGameForReal` never consults the issuing connection —
there is no host (or even membership) check.  For any connection whatever:
if the named session has already started the call is a no-op, and otherwise
it marks the session started, regardless of who issued it. -/
theorem C4_no_host_check (st : ServerState) (sid : String) (gid : String)
    (game : Game) (trash : String) (h : getGame st gid = some game) :
    (game.gameStarted = true → startGameForReal st sid (some gid) trash = (st, [])) ∧
    (game.gameStarted = false →
      ∀ g', getGame (startGameForReal st sid (some gid) trash).1 gid = some g' →
        g'.gameStarted = true) := by
  constructor
  · intro hs
    unfold startGameForReal
    simp only [h, hs]
    rfl
  · intro hs g' hg'
    have hsome : (getGame st gid).isSome := by rw [h]; rfl
    have h1 : getGame (putGame st gid { game with gameStarted := true }) gid =
        some { game with gameStarted := true } := getGame_putGame_self st gid _ hsome
    have h2 := getGame_startGame_self (putGame st gid { game with gameStarted := true })
      gid { game with gameStarted := true } trash h1
    have hred : startGameForReal st sid (some gid) trash =
        startGame (putGame st gid { game with gameStarted := true }) gid
          (alGet (putGame st gid { game with gameStarted := true }).publicGames gid).isSome
          trash := by
      unfold startGameForReal
      simp only [h, hs, Bool.false_eq_true, if_false]
    rw [hred, h2] at hg'
    injection hg' with hEq
    subst hEq
    rfl

/-- C4, witness: the amended theorem instantiated on the already-started
session `gFix` (no-op branch) and on the unstarted session `gNS` with the
non-host `x` issuing the signal (start branch). -/
theorem C4_witness :
    (startGameForReal stFix "p2" (some "g1") "handbag" = (stFix, [])) ∧
    c4res.gameStarted = true :=
  ⟨(C4_no_host_check stFix "p2" "g1" gFix "handbag" (by decide)).1 (by decide),
   (C4_no_host_check stNS "x" "g2" gNS "handbag" (by decide)).2 (by decide)
     c4res (by decide)⟩

/-! ## C5 -/

/-- A private session that has already started, with two seats taken. -/
def gPriv : Game :=
  { id := "g3", players := ["h", "a"], host := "h", readyStates := [],
    round := 2, maxRounds := 3, gameState := "lobby", trashType := "golden",
    negativeMode := false, scores := [("a", 0)], isPublic := false,
    createdAt := 0, gameStarted := true }

/-- Server state holding the started private session `gPriv`. -/
def stPriv : ServerState :=
  { publicGames := [], privateGames := [("g3", gPriv)],
    players := [("h", ⟨some "g3", some "cat"⟩), ("a", ⟨some "g3", some "dog"⟩),
                ("c3", ⟨none, none⟩)],
    lastActivity := 0 }

/-- A full (4-seat) private session in the lobby. -/
def gFull : Game :=
  { id := "g4", players := ["q1", "q2", "q3", "q4"], host := "q1", readyStates := [],
    round := 1, maxRounds := 3, gameState := "lobby", trashType := "golden",
    negativeMode := false, scores := [("q2", 0), ("q3", 0), ("q4", 0)],
    isPublic := false, createdAt := 0, gameStarted := false }

/-- Server state holding the full private session `gFull`. -/
def stFull : ServerState :=
  { publicGames := [], privateGames := [("g4", gFull)],
    players := [("q1", ⟨some "g4", some "cat"⟩), ("q2", ⟨some "g4", some "dog"⟩),
                ("q3", ⟨some "g4", some "elf"⟩), ("q4", ⟨some "g4", some "imp"⟩),
                ("c5", ⟨none, none⟩)],
    lastActivity := 0 }

/-- C5, counterexample: `gPriv` has left the lobby (`gameStarted = true`,
round 2), yet `joinPrivateGame` admits a new player `c3` instead of failing
with `AlreadyStarted` — the join succeeds and the roster grows to 3. -/
theorem C5_counterexample :
    gPriv.gameStarted = true ∧
    (joinPrivateGame stPriv "c3" "g3" "elf" "golden").2.1 = true ∧
    (alGet (joinPrivateGame stPriv "c3" "g3" "elf" "golden").1.privateGames "g3").map
      Game.players = some ["h", "a", "c3"] := by
  decide

/-- C5, amended: `joinPrivateGame` has exactly two failure modes, both
reported to the originating connection with the session state unchanged:
`"Game not found"` when the id is absent from the private pool and
`"Game is full"` when the roster already holds 4 or more players.  There is
no `AlreadyStarted` failure: a join on a session that has left the lobby is
accepted. -/
theorem C5_errors (st : ServerState) (sid gid ch trash : String) :
    (alGet st.privateGames gid = none →
       joinPrivateGame st sid gid ch trash =
         (st, false, [Event.gameError sid "Game not found"])) ∧
    (∀ game, alGet st.privateGames gid = some game → 4 ≤ game.players.length →
       joinPrivateGame st sid gid ch trash =
         (st, false, [Event.gameError sid "Game is full"])) := by
  constructor
  · intro h
    unfold joinPrivateGame joinGame
    simp only [Bool.false_eq_true, if_false, h]
  · intro game h hlen
    unfold joinPrivateGame joinGame
    simp only [Bool.false_eq_true, if_false, h]
    rw [if_pos hlen]

/-- C5, witness: the amended theorem instantiated on an id absent from the
private pool and on the full private session `gFull`. -/
theorem C5_witness :
    joinPrivateGame stPriv "c3" "nope" "elf" "golden" =
      (stPriv, false, [Event.gameError "c3" "Game not found"]) ∧
    joinPrivateGame stFull "c5" "g4" "elf" "golden" =
      (stFull, false, [Event.gameError "c5" "Game is full"]) :=
  ⟨(C5_errors stPriv "c3" "nope" "elf" "golden").1 (by decide),
   (C5_errors stFull "c5" "g4" "elf" "golden").2 gFull (by decide) (by decide)⟩

/-! ## C6 -/

/-- C6, counterexample: calling `endGame` on the live session `g1` removes
it from the public registry in the very same step that emits the `gameOver`
broadcast — there is no 30-second grace window during which the session
remains in the registry. -/
theorem C6_counterexample :
    alGet (endGame stFix "g1" true).1.publicGames "g1" = none ∧
    (endGame stFix "g1" true).2 ≠ [] := by
  decide

/-- C6, amended: `endGame` deletes the session from its registry
immediately: the state it returns is exactly `deleteGame`, the id no longer
resolves in the registry it lived in, and the `gameOver` broadcast is
emitted in the same atomic step.  No deletion is scheduled for later. -/
theorem C6_immediate_delete (st : ServerState) (gid : String) (isPublic : Bool)
    (game : Game)
    (h : (if isPublic then alGet st.publicGames gid else alGet st.privateGames gid) =
      some game) :
    (endGame st gid isPublic).1 = deleteGame st gid isPublic ∧
    (if isPublic then alGet (endGame st gid isPublic).1.publicGames gid
     else alGet (endGame st gid isPublic).1.privateGames gid) = none ∧
    (endGame st gid isPublic).2 =
      game.players.map (fun pid =>
        Event.gameOver pid (computeWinner game.scores).2 game.scores) := by
  have h1 : endGame st gid isPublic =
      (deleteGame st gid isPublic,
       game.players.map (fun pid =>
         Event.gameOver pid (computeWinner game.scores).2 game.scores)) := by
    unfold endGame
    simp only [h]
  refine ⟨by rw [h1], ?_, by rw [h1]⟩
  rw [h1]
  cases isPublic with
  | true => simp [deleteGame, alGet_alErase_self]
  | false => simp [deleteGame, alGet_alErase_self]

/-- C6, witness: the amended theorem instantiated on the live session
`stFix`. -/
theorem C6_witness :
    (endGame stFix "g1" true).1 = deleteGame stFix "g1" true ∧
    (if true then alGet (endGame stFix "g1" true).1.publicGames "g1"
     else alGet (endGame stFix "g1" true).1.privateGames "g1") = none ∧
    (endGame stFix "g1" true).2 =
      gFix.players.map (fun pid =>
        Event.gameOver pid (computeWinner gFix.scores).2 gFix.scores) :=
  C6_immediate_delete stFix "g1" true gFix (by decide)

/-! ## C7 -/

/-- C7, counterexample: the server applies whatever point value the client
supplies, so a `tapTrash` with `points = -5` drops `p1`'s score from 3 to
-2 — a scoring action that strictly decreases a cumulative score. -/
theorem C7_counterexample :
    (getGame (handlePlayerAction stFix "p1" "g1" "tapTrash" (-5)).1 "g1").map
      Game.scores = some [("p1", -2), ("p2", 5)] ∧
    ((-2 : Int) < 3) := by
  decide

theorem handlePlayerAction_tapTrash (st : ServerState) (sid gid : String)
    (game : Game) (points : Int) (h : getGame st gid = some game)
    (hmem : sid ∈ game.players) :
    (handlePlayerAction st sid gid "tapTrash" points).1 =
      putGame st gid { game with
        scores := alSet game.scores sid ((alGet game.scores sid).getD 0 + points) } := by
  unfold handlePlayerAction
  simp only [h]
  rw [if_pos hmem]
  simp

/-- C7, amended: a `tapTrash` action never decreases the actor's cumulative
score provided the caller-supplied `points` is non-negative (the server
applies the value unvalidated, so a negative payload can decrease it), and
`handleRoundComplete` on a non-final round never touches the score table. -/
theorem C7_monotone (st : ServerState) (sid gid : String) (pr : PlayerRec)
    (game : Game) (points : Int) (trash : String)
    (h : getGame st gid = some game) (hp : 0 ≤ points)
    (h1 : alGet st.players sid = some pr) (h2 : pr.gameId = some gid) :
    (∀ g', getGame (handlePlayerAction st sid gid "tapTrash" points).1 gid = some g' →
       (alGet game.scores sid).getD 0 ≤ (alGet g'.scores sid).getD 0) ∧
    (sid = game.host → game.round + 1 ≤ game.maxRounds →
       ∀ g', getGame (handleRoundComplete st sid trash).1 gid = some g' →
         g'.scores = game.scores) := by
  have hsome : (getGame st gid).isSome := by rw [h]; rfl
  constructor
  · by_cases hmem : sid ∈ game.players
    · intro g' hg'
      rw [handlePlayerAction_tapTrash st sid gid game points h hmem,
        getGame_putGame_self st gid _ hsome] at hg'
      injection hg' with hEq
      subst hEq
      show (alGet game.scores sid).getD 0 ≤
        (alGet (alSet game.scores sid ((alGet game.scores sid).getD 0 + points)) sid).getD 0
      rw [alGet_alSet_self]
      simp only [Option.getD_some]
      omega
    · intro g' hg'
      have hres : (handlePlayerAction st sid gid "tapTrash" points).1 = st := by
        unfold handlePlayerAction
        simp only [h]
        rw [if_neg hmem]
      rw [hres, h] at hg'
      injection hg' with hEq
      subst hEq
      exact le_refl _
  · intro hh hround g' hg'
    have hdir : (alGet st.players sid).bind PlayerRec.gameId = some gid := by
      rw [h1]
      exact h2
    have hput1 : getGame (putGame st gid { game with round := game.round + 1 }) gid =
        some { game with round := game.round + 1 } := getGame_putGame_self st gid _ hsome
    have hnotend : ¬ ({ game with round := game.round + 1 } : Game).maxRounds <
        ({ game with round := game.round + 1 } : Game).round := by
      show ¬ game.maxRounds < game.round + 1
      omega
    have hres : (handleRoundComplete st sid trash).1 =
        putGame (putGame st gid { game with round := game.round + 1 }) gid
          { game with round := game.round + 1, trashType := trash } := by
      unfold handleRoundComplete
      simp only [hdir, h]
      rw [if_pos hh, if_neg hnotend]
    rw [hres, getGame_putGame_self _ gid _ (by rw [hput1]; rfl)] at hg'
    injection hg' with hEq
    subst hEq
    rfl

/-- The session `gFix` after `p1` taps for 7 points. -/
def c7aGame : Game := { gFix with scores := [("p1", 10), ("p2", 5)] }

/-- The session `gFix` after the host completes round 1. -/
def c7bGame : Game := { gFix with round := 2, trashType := "trashcan" }

/-- C7, witness: the amended theorem instantiated on `stFix` with a +7 tap
by `p1` and a round-complete by the host `p1`. -/
theorem C7_witness :
    ((alGet gFix.scores "p1").getD 0 ≤ (alGet c7aGame.scores "p1").getD 0) ∧
    c7bGame.scores = gFix.scores :=
  ⟨(C7_monotone stFix "p1" "g1" ⟨some "g1", some "cat"⟩ gFix 7 "trashcan"
      (by decide) (by decide) (by decide) (by decide)).1 c7aGame (by decide),
   (C7_monotone stFix "p1" "g1" ⟨some "g1", some "cat"⟩ gFix 7 "trashcan"
      (by decide) (by decide) (by decide) (by decide)).2 rfl (by decide)
      c7bGame (by decide)⟩

/-! ## C9 -/

theorem filter_idem {α : Type} (p : α → Bool) (l : List α) :
    (l.filter p).filter p = l.filter p := by
  induction l with
  | nil => rfl
  | cons a rest ih =>
    by_cases h : p a
    · simp [List.filter_cons, h, ih]
    · simp [List.filter_cons, h, ih]

theorem cleanupOldGames_idem (st : ServerState) (now : Int) :
    cleanupOldGames (cleanupOldGames st now) now = cleanupOldGames st now := by
  unfold cleanupOldGames
  simp [filter_idem]

/-- A public session well past the 30-minute age cap. -/
def gOld : Game :=
  { id := "g0", players := ["p"], host := "p", readyStates := [],
    round := 1, maxRounds := 3, gameState := "lobby", trashType := "golden",
    negativeMode := false, scores := [], isPublic := true, createdAt := 0,
    gameStarted := false }

/-- Server state holding the stale session `gOld`. -/
def stOld : ServerState :=
  { publicGames := [("g0", gOld)], privateGames := [],
    players := [("p", ⟨some "g0", some "cat"⟩)], lastActivity := 0 }

/-- C9, counterexample: at `now = 1800001` the session `g0` is past the
30-minute cap, yet the background interval callback (`keepAliveTick`, the
only timer the server installs) leaves the state — and hence the stale
session — untouched, while `cleanupOldGames` would remove it: no background
timer invokes the sweep. -/
theorem C9_counterexample :
    keepAliveTick stOld 1800001 = stOld ∧
    alGet stOld.publicGames "g0" = some gOld ∧
    alGet (cleanupOldGames stOld 1800001).publicGames "g0" = none := by
  decide

/-- C9, amended: `cleanupOldGames` keeps exactly those sessions, in both
registries, that are at most 30 minutes old and have a non-empty roster
(removing every session older than 30 minutes or with player count 0), and
it runs eagerly at the start of every `handleQuickPlay` matchmaking attempt
(pre-sweeping the state does not change the outcome); the only background
timer the server installs is the keep-alive ping, which never invokes the
sweep. -/
theorem C9_sweep (st : ServerState) (now : Int) (gid : String) (g : Game)
    (sid ch trash : String) :
    ((gid, g) ∈ (cleanupOldGames st now).publicGames ↔
       (gid, g) ∈ st.publicGames ∧ ¬ 1800000 < now - g.createdAt ∧ g.players ≠ []) ∧
    ((gid, g) ∈ (cleanupOldGames st now).privateGames ↔
       (gid, g) ∈ st.privateGames ∧ ¬ 1800000 < now - g.createdAt ∧ g.players ≠ []) ∧
    handleQuickPlay st sid ch now trash =
      handleQuickPlay (cleanupOldGames st now) sid ch now trash := by
  refine ⟨?_, ?_, ?_⟩
  · simp [cleanupOldGames, List.mem_filter, not_or, List.isEmpty_iff, and_assoc]
  · simp [cleanupOldGames, List.mem_filter, not_or, List.isEmpty_iff, and_assoc]
  · unfold handleQuickPlay
    rw [cleanupOldGames_idem]

/-! ## C10 -/

/-- C10: `handlePlayerAction` is total over missing score-table entries —
for a roster member with no entry in the score table the absent score is
read as 0 (`game.scores[id] || 0`) and a `tapTrash` still accumulates,
ending at exactly `points`; and `createGame` indeed hands the creator of a
private session no initial score entry (its score table is empty while the
creator sits alone in the roster). -/
theorem C10_missing_entry (st : ServerState) (sid gid : String) (game : Game)
    (points : Int) (h : getGame st gid = some game) (hmem : sid ∈ game.players)
    (hnone : alGet game.scores sid = none) :
    (∀ g', getGame (handlePlayerAction st sid gid "tapTrash" points).1 gid = some g' →
       alGet g'.scores sid = some points) ∧
    (∀ st2 : ServerState, ∀ sid2 trash : String, ∀ now : Int,
       (alGet (createGame st2 sid2 now trash false).1.privateGames
         ("game_" ++ toString now)).map Game.scores = some [] ∧
       (alGet (createGame st2 sid2 now trash false).1.privateGames
         ("game_" ++ toString now)).map Game.players = some [sid2]) := by
  have hsome : (getGame st gid).isSome := by rw [h]; rfl
  constructor
  · intro g' hg'
    rw [handlePlayerAction_tapTrash st sid gid game points h hmem,
      getGame_putGame_self st gid _ hsome] at hg'
    injection hg' with hEq
    subst hEq
    show alGet (alSet game.scores sid ((alGet game.scores sid).getD 0 + points)) sid =
      some points
    rw [alGet_alSet_self, hnone]
    simp
  · intro st2 sid2 trash now
    constructor
    · simp [createGame, alGet_alSet_self]
    · simp [createGame, alGet_alSet_self]

/-- A private session whose lone roster member has no score entry. -/
def gNoScore : Game :=
  { id := "g5", players := ["h"], host := "h", readyStates := [],
    round := 1, maxRounds := 3, gameState := "lobby", trashType := "golden",
    negativeMode := false, scores := [], isPublic := false, createdAt := 0,
    gameStarted := false }

/-- Server state holding `gNoScore`. -/
def stNoScore : ServerState :=
  { publicGames := [], privateGames := [("g5", gNoScore)],
    players := [("h", ⟨some "g5", some "cat"⟩)], lastActivity := 0 }

/-- The session `gNoScore` after `h` taps for 7 points from no entry. -/
def c10res : Game := { gNoScore with scores := [("h", 7)] }

/-- C10, witness: the theorem instantiated on `stNoScore`, whose roster
member `h` has no score entry and ends at exactly 7 after a +7 tap, and on
a concrete private-session creation. -/
theorem C10_witness :
    alGet c10res.scores "h" = some 7 ∧
    ((alGet (createGame stFix "z" 42 "golden" false).1.privateGames
        ("game_" ++ toString (42 : Int))).map Game.scores = some [] ∧
     (alGet (createGame stFix "z" 42 "golden" false).1.privateGames
        ("game_" ++ toString (42 : Int))).map Game.players = some ["z"]) :=
  ⟨(C10_missing_entry stNoScore "h" "g5" gNoScore 7
      (by decide) (by decide) (by decide)).1 c10res (by decide),
   (C10_missing_entry stNoScore "h" "g5" gNoScore 7
      (by decide) (by decide) (by decide)).2 stFix "z" "golden" 42⟩

end TrashRush
